import Mathlib

/-!
Verification of `pytext/metrics/mask_metrics.py`: a shallow embedding of the
length-metric aggregation, the masked-metrics aggregation and the NAS objective
scorer, together with theorems settling the specification's claims about them.

Modelling conventions:
* Python floats are modelled by `ℚ`; all arithmetic in this module is exact at
  the inputs the claims exercise.
* Target lengths are non-negative integers, modelled by `ℕ`.
* The Python dict `length_metrics` has contiguous keys `0 .. beam-1` inserted in
  order, so it is modelled by a `List ℚ` indexed by beam width.
* Fallible computations (Python exceptions) are modelled by `Except String`.
* The float exponent `param_importance` is modelled at non-negative integer
  values, where Python float `**` agrees with iterated multiplication.
-/

namespace PyText

/-- Modelled from the spec: `FramePredictionPair` is an external type, opaque to
this core beyond being passed through; frame accuracy only compares the
predicted parse tree with the gold one, so frames are abstracted as ids with
decidable equality. -/
structure FramePredictionPair where
  predicted : ℕ
  expected : ℕ
deriving DecidableEq

/-- Modelled from the spec: `Node` (a parse-tree node from the external
intent-slot library) is opaque to this core. -/
structure Node where
  tag : ℕ
deriving DecidableEq

/-- Modelled from the spec: `IntentSlotMetrics` (bracket/tree F1 record of the
external intent-slot library) is out of scope; abstracted as an opaque record. -/
structure IntentSlotMetrics where
  score : ℚ
deriving DecidableEq

/-- Modelled from the spec: `FrameAccuraciesByDepth`, a mapping from depth to
frame accuracy produced by the external intent-slot library. -/
def FrameAccuraciesByDepth : Type := List (ℕ × ℚ)

instance : DecidableEq FrameAccuraciesByDepth :=
  inferInstanceAs (DecidableEq (List (ℕ × ℚ)))

/-- `LabelPrediction` from `pytext.metrics`: a score vector, a predicted label
index and an expected label index. -/
structure LabelPrediction where
  label_scores : List ℚ
  predicted_label : ℕ
  expected_label : ℕ
deriving DecidableEq

/-- Modelled from the spec: the external classification-metrics routine is out
of scope (precision/recall curves); its report is abstracted as the record of
the inputs handed to it, which is all the claims inspect. -/
structure ClassificationMetrics where
  pairs : List LabelPrediction
  label_names : List String
  loss : ℚ
deriving DecidableEq

/-- Modelled from the spec: `compute_classification_metrics` delegates to the
external classification-metrics capability; abstracted as the injective
packaging of its three arguments. -/
def compute_classification_metrics (pairs : List LabelPrediction)
    (label_names : List String) (loss : ℚ) : ClassificationMetrics :=
  ⟨pairs, label_names, loss⟩

/-- Modelled from the spec: `compute_frame_accuracy(pairs)` of the external
intent-slot library returns a scalar and is tolerant of an absent pairs
argument by returning 0; on present pairs it is the fraction of pairs whose
predicted frame equals the gold frame. -/
def compute_frame_accuracy : Option (List FramePredictionPair) → ℚ
  | none => 0
  | some [] => 0
  | some ps =>
    ((ps.countP fun p => decide (p.predicted = p.expected) : ℕ) : ℚ) / (ps.length : ℚ)

/-- `sklearn.metrics.accuracy_score` on integer label lists of equal length:
the fraction of positions where the two lists agree. -/
def accuracy_score (y_true y_pred : List ℕ) : ℚ :=
  (((y_true.zip y_pred).countP fun p => decide (p.1 = p.2) : ℕ) : ℚ) / (y_true.length : ℚ)

/-- The aggregated prediction for one example at beam width `l`
(`mask_metrics.py` lines 94-98): the gold `label` if it occurs among
`preds[0:l+1]`, else `preds[0]`.  `preds.headI` models `preds[0]`; every claim
about this function supplies non-empty rows, where the two agree. -/
def agg_row (label : ℕ) (preds : List ℕ) (l : ℕ) : ℕ :=
  if label ∈ preds.take (l + 1) then label else preds.headI

/-- `all_length_pred_agg[l]` of `compute_length_metrics`: the aggregated
predictions of all examples at beam width `l`, built over
`zip(all_target_lens, all_target_length_preds)`. -/
def all_length_pred_agg (all_target_lens : List ℕ)
    (all_target_length_preds : List (List ℕ)) (l : ℕ) : List ℕ :=
  (all_target_lens.zip all_target_length_preds).map fun lp => agg_row lp.1 lp.2 l

/-- Python `max` over a list of non-negative integers; the source only applies
it to non-empty lists (Python raises `ValueError` on an empty one). -/
def list_max (l : List ℕ) : ℕ := l.foldr max 0

/-- `compute_length_metrics` (`mask_metrics.py` lines 82-115).  Returns the
per-beam-width accuracy mapping (as a list indexed by beam width) and the
classification report at the selected beam; when the prediction list is empty
the guarded branch is skipped and both results stay empty (`none` models the
empty placeholder dict `\x7b\x7d` bound to `length_report`). -/
def compute_length_metrics (all_target_lens : List ℕ)
    (all_target_length_preds : List (List ℕ)) (select_length_beam : ℕ) :
    List ℚ × Option ClassificationMetrics :=
  match all_target_length_preds with
  | [] => ([], none)
  | p0 :: rest =>
    let predss := p0 :: rest
    let beam := p0.length
    let length_metrics := (List.range beam).map fun i =>
      accuracy_score all_target_lens (all_length_pred_agg all_target_lens predss i)
    let sel := all_length_pred_agg all_target_lens predss select_length_beam
    let max_len := list_max (all_target_lens ++ sel)
    let all_pairs := (sel.zip all_target_lens).map fun pe =>
      LabelPrediction.mk
        ((List.range (max_len + 1)).map fun idx => if idx = pe.1 then (1 : ℚ) else 0)
        pe.1 pe.2
    (length_metrics,
      some (compute_classification_metrics all_pairs
        ((List.range (max_len + 1)).map fun l => toString l) 0))

/-- `MaskedSeq2SeqJointMetrics` (`mask_metrics.py` lines 22-34): the immutable
result record.  Optional metric groups are `Option`-valued (Python `None` for
absent); `length_metrics` is the beam-indexed accuracy list and
`length_reports` the optional classification report. -/
structure MaskedSeq2SeqJointMetrics where
  top_intent_accuracy : Option ℚ
  frame_accuracy : Option ℚ
  frame_accuracy_top_k : Option ℚ
  frame_accuracies_by_depth : Option FrameAccuraciesByDepth
  bracket_metrics : Option IntentSlotMetrics
  tree_metrics : Option IntentSlotMetrics
  loss : Option ℚ
  length_metrics : List ℚ
  length_reports : Option ClassificationMetrics
  non_invalid_fa : ℚ
  extracted_fa : ℚ
  print_length_metrics : Bool
deriving DecidableEq

/-- `NASMaskedSeq2SeqJointMetrics` (`mask_metrics.py` lines 58-67): the base
record extended with the model parameter count and the normalized objective.
The Python subclass injects the two extra attributes onto the tuple; modelled
as explicit composition. -/
structure NASMaskedSeq2SeqJointMetrics where
  base : MaskedSeq2SeqJointMetrics
  model_num_param : ℚ
  norm_prod_model_param_frame_accuracy : ℚ
deriving DecidableEq

/-- The record returned by the external `compute_all_metrics` of
`pytext.metrics.intent_slot_metrics`. -/
structure AllMetrics where
  top_intent_accuracy : Option ℚ
  frame_accuracy : Option ℚ
  frame_accuracy_top_k : Option ℚ
  frame_accuracies_by_depth : Option FrameAccuraciesByDepth
  bracket_metrics : Option IntentSlotMetrics
  tree_metrics : Option IntentSlotMetrics
  loss : Option ℚ
deriving DecidableEq

/-- Modelled from the spec: the out-of-scope per-group figures of the external
intent-slot library, each abstracted as a fixed deterministic function of the
frame pairs (their values are irrelevant to the claims; only their presence
wiring matters). -/
def external_top_intent_accuracy (ps : List FramePredictionPair) : ℚ :=
  compute_frame_accuracy (some ps)

/-- Modelled from the spec: abstraction of the external frame-accuracy-at-top-k
figure, present exactly when a predicted-frame list is supplied. -/
def external_frame_accuracy_top_k (fs : List (List Node)) : ℚ :=
  (fs.length : ℚ)

/-- Modelled from the spec: abstraction of the external per-depth frame
accuracies. -/
def external_frame_accuracies_by_depth (ps : List FramePredictionPair) :
    FrameAccuraciesByDepth :=
  [(ps.length, compute_frame_accuracy (some ps))]

/-- Modelled from the spec: abstraction of the external bracket F1 record. -/
def external_bracket_metrics (ps : List FramePredictionPair) : IntentSlotMetrics :=
  ⟨(ps.length : ℚ)⟩

/-- Modelled from the spec: abstraction of the external tree F1 record. -/
def external_tree_metrics (ps : List FramePredictionPair) : IntentSlotMetrics :=
  ⟨(ps.length : ℚ) + 1⟩

/-- Modelled from the spec: `compute_all_metrics` of the external intent-slot
library (`pytext.metrics.intent_slot_metrics`, not under `src/`).  Per spec
§4.2, any group whose toggle is false yields an absent (`none`) value; per spec
§4.3, `overall_metrics = true` forces the frame accuracy to be populated.  The
frame accuracy is the `compute_frame_accuracy` figure over the frame pairs
(spec §6); the other groups are out-of-scope abstractions. -/
def compute_all_metrics (frame_pairs : List FramePredictionPair)
    (top_intent_accuracy frame_accuracy frame_accuracies_by_depth
     bracket_metrics tree_metrics overall_metrics : Bool)
    (all_predicted_frames : Option (List (List Node)))
    (calculated_loss : Option ℚ) : AllMetrics where
  top_intent_accuracy :=
    if top_intent_accuracy then some (external_top_intent_accuracy frame_pairs) else none
  frame_accuracy :=
    if frame_accuracy || overall_metrics
    then some (compute_frame_accuracy (some frame_pairs)) else none
  frame_accuracy_top_k := all_predicted_frames.map external_frame_accuracy_top_k
  frame_accuracies_by_depth :=
    if frame_accuracies_by_depth
    then some (external_frame_accuracies_by_depth frame_pairs) else none
  bracket_metrics :=
    if bracket_metrics then some (external_bracket_metrics frame_pairs) else none
  tree_metrics :=
    if tree_metrics then some (external_tree_metrics frame_pairs) else none
  loss := calculated_loss

/-- `compute_masked_metrics` (`mask_metrics.py` lines 118-166).  Arguments
follow the Python parameter order; Python default values are supplied
explicitly at call sites.  Note that the `length_metrics` parameter is
immediately shadowed by the `compute_length_metrics` result in the source, so
it is dead: the model keeps it to state that fact. -/
def compute_masked_metrics (frame_pairs : List FramePredictionPair)
    (all_target_lens : List ℕ) (all_target_length_preds : List (List ℕ))
    (select_length_beam : ℕ)
    (top_intent_accuracy frame_accuracy frame_accuracies_by_depth
     bracket_metrics tree_metrics overall_metrics : Bool)
    (all_predicted_frames : Option (List (List Node)))
    (calculated_loss : Option ℚ)
    (length_metrics : Option (List ℚ))
    (non_invalid_frame_pairs extracted_frame_pairs : Option (List FramePredictionPair))
    (print_length_metrics : Bool) : MaskedSeq2SeqJointMetrics :=
  let all_metrics := compute_all_metrics frame_pairs top_intent_accuracy
    frame_accuracy frame_accuracies_by_depth bracket_metrics tree_metrics
    overall_metrics all_predicted_frames calculated_loss
  let lm := compute_length_metrics all_target_lens all_target_length_preds select_length_beam
  { top_intent_accuracy := all_metrics.top_intent_accuracy
    frame_accuracy := all_metrics.frame_accuracy
    frame_accuracy_top_k := all_metrics.frame_accuracy_top_k
    frame_accuracies_by_depth := all_metrics.frame_accuracies_by_depth
    bracket_metrics := all_metrics.bracket_metrics
    tree_metrics := all_metrics.tree_metrics
    loss := all_metrics.loss
    length_metrics := lm.1
    length_reports := lm.2
    non_invalid_fa := compute_frame_accuracy non_invalid_frame_pairs
    extracted_fa := compute_frame_accuracy extracted_frame_pairs
    print_length_metrics := print_length_metrics }

/-- `compute_nas_masked_metrics` (`mask_metrics.py` lines 169-224).  The inner
`compute_masked_metrics` call passes only `overall_metrics=True`,
`calculated_loss`, `all_predicted_frames` and the two secondary subsets; the
five metric-group toggles, `length_metrics` and `print_length_metrics` fall
back to their Python defaults (`True` / `None` / `True`) — in particular the
toggle parameters of this function are never used.  The objective
`(frame_accuracy * ref_model_num_param ** param_importance) /
(ref_frame_accuracy * model_num_param ** param_importance)` raises Python
`TypeError` when `frame_accuracy` is `None` and `ZeroDivisionError` when the
denominator is zero; both are modelled by `Except.error`. -/
def compute_nas_masked_metrics (frame_pairs : List FramePredictionPair)
    (all_target_lens : List ℕ) (all_target_length_preds : List (List ℕ))
    (select_length_beam : ℕ)
    (top_intent_accuracy frame_accuracy frame_accuracies_by_depth
     bracket_metrics tree_metrics overall_metrics : Bool)
    (all_predicted_frames : Option (List (List Node)))
    (calculated_loss : Option ℚ)
    (length_metrics : Option (List ℚ))
    (non_invalid_frame_pairs extracted_frame_pairs : Option (List FramePredictionPair))
    (model_num_param ref_model_num_param ref_frame_accuracy : ℚ)
    (param_importance : ℕ) : Except String NASMaskedSeq2SeqJointMetrics :=
  let m := compute_masked_metrics frame_pairs all_target_lens
    all_target_length_preds select_length_beam
    true true true true true true
    all_predicted_frames calculated_loss none
    non_invalid_frame_pairs extracted_frame_pairs true
  match m.frame_accuracy with
  | none => .error "unsupported operand type for NoneType"
  | some fa =>
    let denom := ref_frame_accuracy * model_num_param ^ param_importance
    if denom = 0 then .error "float division by zero"
    else
      .ok { base :=
              { top_intent_accuracy := m.top_intent_accuracy
                frame_accuracy := m.frame_accuracy
                frame_accuracy_top_k := m.frame_accuracy_top_k
                frame_accuracies_by_depth := m.frame_accuracies_by_depth
                bracket_metrics := m.bracket_metrics
                tree_metrics := m.tree_metrics
                loss := m.loss
                length_metrics := m.length_metrics
                length_reports := m.length_reports
                non_invalid_fa := m.non_invalid_fa
                extracted_fa := m.extracted_fa
                print_length_metrics := true }
            model_num_param := model_num_param
            norm_prod_model_param_frame_accuracy :=
              (fa * ref_model_num_param ^ param_importance) / denom }

/-! ### Claims about `compute_length_metrics` degradation and the aggregators -/

/-- Claim C3: for every gold-length list and every selected beam index, if the
predicted-length-list sequence is empty, `compute_length_metrics` returns an
empty length-metrics mapping and an empty report, and raises no error (the
embedding is total on this branch, mirroring the guarded Python branch). -/
theorem C3_empty_preds_empty_results (all_target_lens : List ℕ)
    (select_length_beam : ℕ) :
    compute_length_metrics all_target_lens [] select_length_beam = ([], none) := rfl

/-- Claim C10: the `length_metrics` parameter of `compute_masked_metrics` has
no effect on the result — any two calls differing only in it return equal
records — because the result fields `length_metrics` and `length_reports` are
always recomputed by `compute_length_metrics` from `all_target_lens`,
`all_target_length_preds` and `select_length_beam`. -/
theorem C10_length_metrics_param_has_no_effect
    (frame_pairs : List FramePredictionPair)
    (all_target_lens : List ℕ) (all_target_length_preds : List (List ℕ))
    (select_length_beam : ℕ)
    (t1 t2 t3 t4 t5 t6 : Bool)
    (all_predicted_frames : Option (List (List Node)))
    (calculated_loss : Option ℚ)
    (lm1 lm2 : Option (List ℚ))
    (non_invalid_frame_pairs extracted_frame_pairs : Option (List FramePredictionPair))
    (plm : Bool) :
    compute_masked_metrics frame_pairs all_target_lens all_target_length_preds
        select_length_beam t1 t2 t3 t4 t5 t6 all_predicted_frames
        calculated_loss lm1 non_invalid_frame_pairs extracted_frame_pairs plm
      = compute_masked_metrics frame_pairs all_target_lens all_target_length_preds
        select_length_beam t1 t2 t3 t4 t5 t6 all_predicted_frames
        calculated_loss lm2 non_invalid_frame_pairs extracted_frame_pairs plm
    ∧ (compute_masked_metrics frame_pairs all_target_lens all_target_length_preds
        select_length_beam t1 t2 t3 t4 t5 t6 all_predicted_frames
        calculated_loss lm1 non_invalid_frame_pairs extracted_frame_pairs plm).length_metrics
      = (compute_length_metrics all_target_lens all_target_length_preds select_length_beam).1
    ∧ (compute_masked_metrics frame_pairs all_target_lens all_target_length_preds
        select_length_beam t1 t2 t3 t4 t5 t6 all_predicted_frames
        calculated_loss lm1 non_invalid_frame_pairs extracted_frame_pairs plm).length_reports
      = (compute_length_metrics all_target_lens all_target_length_preds select_length_beam).2 :=
  ⟨rfl, rfl, rfl⟩

/-- Claim C7: an absent (`none`) non-invalid or extracted secondary subset
makes the corresponding result field exactly `0`, under the spec-modelled
`compute_frame_accuracy` that returns `0` for an absent pairs argument; and
this zero coincides with the value produced by a present subset that scores
`0`. -/
theorem C7_absent_subset_fa_zero
    (frame_pairs : List FramePredictionPair)
    (all_target_lens : List ℕ) (all_target_length_preds : List (List ℕ))
    (select_length_beam : ℕ)
    (t1 t2 t3 t4 t5 t6 : Bool)
    (all_predicted_frames : Option (List (List Node)))
    (calculated_loss : Option ℚ) (lm : Option (List ℚ)) (plm : Bool)
    (qs rs : List FramePredictionPair)
    (h1 : compute_frame_accuracy (some qs) = 0)
    (h2 : compute_frame_accuracy (some rs) = 0) :
    (compute_masked_metrics frame_pairs all_target_lens all_target_length_preds
        select_length_beam t1 t2 t3 t4 t5 t6 all_predicted_frames
        calculated_loss lm none none plm).non_invalid_fa = 0
    ∧ (compute_masked_metrics frame_pairs all_target_lens all_target_length_preds
        select_length_beam t1 t2 t3 t4 t5 t6 all_predicted_frames
        calculated_loss lm none none plm).extracted_fa = 0
    ∧ (compute_masked_metrics frame_pairs all_target_lens all_target_length_preds
        select_length_beam t1 t2 t3 t4 t5 t6 all_predicted_frames
        calculated_loss lm (some qs) (some rs) plm).non_invalid_fa
      = (compute_masked_metrics frame_pairs all_target_lens all_target_length_preds
        select_length_beam t1 t2 t3 t4 t5 t6 all_predicted_frames
        calculated_loss lm none none plm).non_invalid_fa
    ∧ (compute_masked_metrics frame_pairs all_target_lens all_target_length_preds
        select_length_beam t1 t2 t3 t4 t5 t6 all_predicted_frames
        calculated_loss lm (some qs) (some rs) plm).extracted_fa
      = (compute_masked_metrics frame_pairs all_target_lens all_target_length_preds
        select_length_beam t1 t2 t3 t4 t5 t6 all_predicted_frames
        calculated_loss lm none none plm).extracted_fa := by
  refine ⟨rfl, rfl, ?_, ?_⟩
  · show compute_frame_accuracy (some qs) = compute_frame_accuracy none
    rw [h1]; rfl
  · show compute_frame_accuracy (some rs) = compute_frame_accuracy none
    rw [h2]; rfl

/-- Witness for C7 at a concrete input: a present one-element subset whose pair
mismatches scores `0`, and the absent-subset fields are `0` and coincide with
it. -/
theorem C7_absent_subset_fa_zero_witness :
    compute_frame_accuracy (some [FramePredictionPair.mk 1 2]) = 0
    ∧ ((compute_masked_metrics [] [] [] 0 true true true true true false
        none none none none none true).non_invalid_fa = 0
    ∧ (compute_masked_metrics [] [] [] 0 true true true true true false
        none none none none none true).extracted_fa = 0
    ∧ (compute_masked_metrics [] [] [] 0 true true true true true false
        none none none
        (some [FramePredictionPair.mk 1 2]) (some [FramePredictionPair.mk 1 2])
        true).non_invalid_fa
      = (compute_masked_metrics [] [] [] 0 true true true true true false
        none none none none none true).non_invalid_fa
    ∧ (compute_masked_metrics [] [] [] 0 true true true true true false
        none none none
        (some [FramePredictionPair.mk 1 2]) (some [FramePredictionPair.mk 1 2])
        true).extracted_fa
      = (compute_masked_metrics [] [] [] 0 true true true true true false
        none none none none none true).extracted_fa) :=
  ⟨by norm_num [compute_frame_accuracy],
   C7_absent_subset_fa_zero [] [] [] 0 true true true true true false
     none none none true [FramePredictionPair.mk 1 2] [FramePredictionPair.mk 1 2]
     (by norm_num [compute_frame_accuracy]) (by norm_num [compute_frame_accuracy])⟩

/-! ### Claims about the NAS objective -/

/-- The frame accuracy produced by the inner `compute_masked_metrics` call of
`compute_nas_masked_metrics` is always populated, since that call forces
`overall_metrics = true`. -/
theorem nas_inner_frame_accuracy_populated
    (frame_pairs : List FramePredictionPair)
    (all_target_lens : List ℕ) (all_target_length_preds : List (List ℕ))
    (select_length_beam : ℕ)
    (all_predicted_frames : Option (List (List Node)))
    (calculated_loss : Option ℚ)
    (non_invalid_frame_pairs extracted_frame_pairs : Option (List FramePredictionPair)) :
    (compute_masked_metrics frame_pairs all_target_lens all_target_length_preds
        select_length_beam true true true true true true all_predicted_frames
        calculated_loss none non_invalid_frame_pairs extracted_frame_pairs
        true).frame_accuracy
      = some (compute_frame_accuracy (some frame_pairs)) := rfl

/-- Claim C1: whenever the underlying frame accuracy is a number `fa` (and the
denominator is non-zero, so that a value is returned at all), the returned
objective equals
`(fa * ref_model_num_param ^ param_importance) /
 (ref_frame_accuracy * model_num_param ^ param_importance)`. -/
theorem C1_nas_objective_formula
    (frame_pairs : List FramePredictionPair)
    (all_target_lens : List ℕ) (all_target_length_preds : List (List ℕ))
    (select_length_beam : ℕ)
    (t1 t2 t3 t4 t5 t6 : Bool)
    (all_predicted_frames : Option (List (List Node)))
    (calculated_loss : Option ℚ) (lm : Option (List ℚ))
    (non_invalid_frame_pairs extracted_frame_pairs : Option (List FramePredictionPair))
    (model_num_param ref_model_num_param ref_frame_accuracy fa : ℚ)
    (param_importance : ℕ)
    (hfa : (compute_masked_metrics frame_pairs all_target_lens
        all_target_length_preds select_length_beam true true true true true true
        all_predicted_frames calculated_loss none non_invalid_frame_pairs
        extracted_frame_pairs true).frame_accuracy = some fa)
    (hd : ref_frame_accuracy * model_num_param ^ param_importance ≠ 0) :
    (compute_nas_masked_metrics frame_pairs all_target_lens
        all_target_length_preds select_length_beam t1 t2 t3 t4 t5 t6
        all_predicted_frames calculated_loss lm non_invalid_frame_pairs
        extracted_frame_pairs model_num_param ref_model_num_param
        ref_frame_accuracy param_importance).map
      (fun r => r.norm_prod_model_param_frame_accuracy)
      = Except.ok ((fa * ref_model_num_param ^ param_importance) /
          (ref_frame_accuracy * model_num_param ^ param_importance)) := by
  simp only [compute_nas_masked_metrics]
  rw [hfa]
  simp only [if_neg hd, Except.map]

/-- Witness for C1 at the spec scenario: five frame pairs of which four match
give `frame_accuracy = 0.8`; with `ref_frame_accuracy = 0.8`,
`model_num_param = ref_model_num_param = 100` and `param_importance = 1`, the
objective is exactly `1`. -/
theorem C1_nas_objective_formula_witness :
    (compute_nas_masked_metrics
        [FramePredictionPair.mk 1 1, FramePredictionPair.mk 2 2,
         FramePredictionPair.mk 3 3, FramePredictionPair.mk 4 4,
         FramePredictionPair.mk 5 6]
        [] [] 0 true true true true true false none none none none none
        100 100 (4 / 5) 1).map
      (fun r => r.norm_prod_model_param_frame_accuracy) = Except.ok 1 :=
  (C1_nas_objective_formula
      [FramePredictionPair.mk 1 1, FramePredictionPair.mk 2 2,
       FramePredictionPair.mk 3 3, FramePredictionPair.mk 4 4,
       FramePredictionPair.mk 5 6]
      [] [] 0 true true true true true false none none none none none
      100 100 (4 / 5) (4 / 5) 1
      (by rw [nas_inner_frame_accuracy_populated]; norm_num [compute_frame_accuracy])
      (by norm_num)).trans
    (congrArg Except.ok (by norm_num))

/-- Claim C6: with a positive `param_importance`, a zero
`ref_frame_accuracy` or a zero `model_num_param`
makes the objective computation fail with the divide-by-zero error, which
surfaces to the caller; no default objective is returned. -/
theorem C6_zero_divisor_error
    (frame_pairs : List FramePredictionPair)
    (all_target_lens : List ℕ) (all_target_length_preds : List (List ℕ))
    (select_length_beam : ℕ)
    (t1 t2 t3 t4 t5 t6 : Bool)
    (all_predicted_frames : Option (List (List Node)))
    (calculated_loss : Option ℚ) (lm : Option (List ℚ))
    (non_invalid_frame_pairs extracted_frame_pairs : Option (List FramePredictionPair))
    (model_num_param ref_model_num_param ref_frame_accuracy : ℚ)
    (param_importance : ℕ)
    (hα : 0 < param_importance)
    (h0 : ref_frame_accuracy = 0 ∨ model_num_param = 0) :
    compute_nas_masked_metrics frame_pairs all_target_lens
        all_target_length_preds select_length_beam t1 t2 t3 t4 t5 t6
        all_predicted_frames calculated_loss lm non_invalid_frame_pairs
        extracted_frame_pairs model_num_param ref_model_num_param
        ref_frame_accuracy param_importance
      = Except.error "float division by zero" := by
  have hd : ref_frame_accuracy * model_num_param ^ param_importance = 0 := by
    rcases h0 with h | h
    · rw [h, zero_mul]
    · rw [h, zero_pow hα.ne', mul_zero]
  simp only [compute_nas_masked_metrics,
    nas_inner_frame_accuracy_populated, hd, if_pos]

/-- Witness for C6: `model_num_param = 0` with `param_importance = 1` yields
the divide-by-zero error. -/
theorem C6_zero_divisor_error_witness :
    compute_nas_masked_metrics [] [] [] 0 true true true true true false
        none none none none none 0 1 1 1
      = Except.error "float division by zero" :=
  C6_zero_divisor_error [] [] [] 0 true true true true true false
    none none none none none 0 1 1 1 (by norm_num) (Or.inr rfl)

/-- Claim C8: whenever `compute_nas_masked_metrics` returns a record, its base
component is exactly the `MaskedSeq2SeqJointMetrics` record of the inner
`compute_masked_metrics` call (toggles at their Python defaults,
`overall_metrics = true`), so every base field is preserved unchanged; only
the two NAS fields are added. -/
theorem C8_base_fields_preserved
    (frame_pairs : List FramePredictionPair)
    (all_target_lens : List ℕ) (all_target_length_preds : List (List ℕ))
    (select_length_beam : ℕ)
    (t1 t2 t3 t4 t5 t6 : Bool)
    (all_predicted_frames : Option (List (List Node)))
    (calculated_loss : Option ℚ) (lm : Option (List ℚ))
    (non_invalid_frame_pairs extracted_frame_pairs : Option (List FramePredictionPair))
    (model_num_param ref_model_num_param ref_frame_accuracy : ℚ)
    (param_importance : ℕ)
    (r : NASMaskedSeq2SeqJointMetrics)
    (h : compute_nas_masked_metrics frame_pairs all_target_lens
        all_target_length_preds select_length_beam t1 t2 t3 t4 t5 t6
        all_predicted_frames calculated_loss lm non_invalid_frame_pairs
        extracted_frame_pairs model_num_param ref_model_num_param
        ref_frame_accuracy param_importance = Except.ok r) :
    r.base = compute_masked_metrics frame_pairs all_target_lens
        all_target_length_preds select_length_beam true true true true true true
        all_predicted_frames calculated_loss none non_invalid_frame_pairs
        extracted_frame_pairs true
    ∧ r.model_num_param = model_num_param := by
  simp only [compute_nas_masked_metrics,
    nas_inner_frame_accuracy_populated] at h
  by_cases hd : ref_frame_accuracy * model_num_param ^ param_importance = 0
  · rw [if_pos hd] at h
    exact absurd h (by simp)
  · rw [if_neg hd] at h
    cases h
    exact ⟨rfl, rfl⟩

/-- Witness for C8 at a concrete input (all inputs empty, parameters 1): the
call returns a record and its base equals the inner aggregation result. -/
theorem C8_base_fields_preserved_witness :
    compute_nas_masked_metrics [] [] [] 0 true true true true true false
        none none none none none 1 1 1 1
      = Except.ok
          (NASMaskedSeq2SeqJointMetrics.mk
            (compute_masked_metrics [] [] [] 0 true true true true true true
              none none none none none true) 1 0)
    ∧ ((NASMaskedSeq2SeqJointMetrics.mk
          (compute_masked_metrics [] [] [] 0 true true true true true true
            none none none none none true) 1 0).base
        = compute_masked_metrics [] [] [] 0 true true true true true true
            none none none none none true
      ∧ (NASMaskedSeq2SeqJointMetrics.mk
          (compute_masked_metrics [] [] [] 0 true true true true true true
            none none none none none true) 1 0).model_num_param = 1) := by
  have hok : compute_nas_masked_metrics [] [] [] 0 true true true true true
      false none none none none none 1 1 1 1
      = Except.ok
          (NASMaskedSeq2SeqJointMetrics.mk
            (compute_masked_metrics [] [] [] 0 true true true true true true
              none none none none none true) 1 0) := by
    have hd : (1 : ℚ) * 1 ^ 1 ≠ 0 := by norm_num
    simp only [compute_nas_masked_metrics, nas_inner_frame_accuracy_populated,
      if_neg hd, Except.ok.injEq, NASMaskedSeq2SeqJointMetrics.mk.injEq]
    refine ⟨rfl, trivial, ?_⟩
    norm_num [compute_frame_accuracy]
  exact ⟨hok,
    C8_base_fields_preserved [] [] [] 0 true true true true true false
      none none none none none 1 1 1 1 _ hok⟩

/-- Claim C5, counterexample: with the `frame_accuracy` toggle set to `false`,
`compute_nas_masked_metrics` does not raise any missing-required-metric error;
it returns a record whose frame accuracy is populated (here `0.8`). -/
theorem C5_counterexample_no_error_raised :
    (compute_nas_masked_metrics
        [FramePredictionPair.mk 1 1, FramePredictionPair.mk 2 2,
         FramePredictionPair.mk 3 3, FramePredictionPair.mk 4 4,
         FramePredictionPair.mk 5 6]
        [] [] 0 true false true true true false none none none none none
        1 1 1 1).map (fun r => r.base.frame_accuracy)
      = Except.ok (some (4 / 5)) := by
  have hd : (1 : ℚ) * 1 ^ 1 ≠ 0 := by norm_num
  simp only [compute_nas_masked_metrics, nas_inner_frame_accuracy_populated,
    if_neg hd, Except.map]
  norm_num [compute_frame_accuracy]

/-- Claim C5 as amended: the metric-group toggles of
`compute_nas_masked_metrics` are never forwarded to the inner
`compute_masked_metrics` call (which is made with the toggles at their Python
defaults and `overall_metrics = true`), so the `frame_accuracy = false` call
returns exactly what the `frame_accuracy = true` call returns — frame accuracy
is populated and the objective computed, with no error. -/
theorem C5_amended_toggles_ignored
    (frame_pairs : List FramePredictionPair)
    (all_target_lens : List ℕ) (all_target_length_preds : List (List ℕ))
    (select_length_beam : ℕ)
    (t1 t2 t3 t4 t5 t6 u1 u2 u3 u4 u5 u6 : Bool)
    (all_predicted_frames : Option (List (List Node)))
    (calculated_loss : Option ℚ) (lm : Option (List ℚ))
    (non_invalid_frame_pairs extracted_frame_pairs : Option (List FramePredictionPair))
    (model_num_param ref_model_num_param ref_frame_accuracy : ℚ)
    (param_importance : ℕ) :
    compute_nas_masked_metrics frame_pairs all_target_lens
        all_target_length_preds select_length_beam t1 t2 t3 t4 t5 t6
        all_predicted_frames calculated_loss lm non_invalid_frame_pairs
        extracted_frame_pairs model_num_param ref_model_num_param
        ref_frame_accuracy param_importance
      = compute_nas_masked_metrics frame_pairs all_target_lens
        all_target_length_preds select_length_beam u1 u2 u3 u4 u5 u6
        all_predicted_frames calculated_loss lm non_invalid_frame_pairs
        extracted_frame_pairs model_num_param ref_model_num_param
        ref_frame_accuracy param_importance := rfl

/-! ### Claims about the length-metric aggregation -/

/-- The specification's effective prediction at width `k` (spec §4.1): the
gold length if it appears within the first `k + 1` beam predictions, else the
top-1 prediction. -/
def spec_effective_prediction (gold : ℕ) (preds : List ℕ) (k : ℕ) : ℕ :=
  if gold ∈ preds.take (k + 1) then gold else preds.headI

/-- `getD` on a mapped range picks out the function value. -/
theorem getD_range_map (f : ℕ → ℚ) (n k : ℕ) (h : k < n) :
    ((List.range n).map f).getD k 0 = f k := by
  rw [List.getD_eq_getElem?_getD, List.getElem?_map, List.getElem?_range h]
  rfl

/-- Counting agreements between the gold lengths and the aggregated
predictions is counting the examples whose aggregated prediction is correct. -/
theorem countP_zip_agg (lens : List ℕ) (predss : List (List ℕ)) (l : ℕ) :
    (lens.zip (all_length_pred_agg lens predss l)).countP (fun p => decide (p.1 = p.2))
      = (lens.zip predss).countP (fun lp => decide (lp.1 = agg_row lp.1 lp.2 l)) := by
  induction lens generalizing predss with
  | nil => rfl
  | cons a as ih =>
    cases predss with
    | nil => rfl
    | cons p ps =>
      show ((a, agg_row a p l) :: as.zip (all_length_pred_agg as ps l)).countP _
          = ((a, p) :: as.zip ps).countP _
      rw [List.countP_cons, List.countP_cons, ih]

/-- The beam-width-`k` entry of the length-metrics list is the fraction of
examples whose aggregated prediction at width `k` equals the gold length. -/
theorem length_metrics_getD (lens : List ℕ) (p0 : List ℕ) (rest : List (List ℕ))
    (b k : ℕ) (hk : k < p0.length) :
    (compute_length_metrics lens (p0 :: rest) b).1.getD k 0
      = (((lens.zip (p0 :: rest)).countP
            (fun lp => decide (lp.1 = agg_row lp.1 lp.2 k)) : ℕ) : ℚ)
        / (lens.length : ℚ) := by
  show ((List.range p0.length).map fun i =>
      accuracy_score lens (all_length_pred_agg lens (p0 :: rest) i)).getD k 0 = _
  rw [getD_range_map _ _ _ hk]
  unfold accuracy_score
  rw [countP_zip_agg]

/-- Correctness of the aggregated prediction is cumulative: an example whose
aggregated prediction is the gold length at width `k` keeps that property at
every width `l ≥ k`. -/
theorem agg_row_correct_mono (label : ℕ) (preds : List ℕ) {k l : ℕ} (hkl : k ≤ l)
    (h : label = agg_row label preds k) : label = agg_row label preds l := by
  unfold agg_row at h ⊢
  by_cases hm : label ∈ preds.take (k + 1)
  · rw [if_pos (List.take_subset_take_left preds (Nat.succ_le_succ hkl) hm)]
  · rw [if_neg hm] at h
    by_cases hml : label ∈ preds.take (l + 1)
    · rw [if_pos hml]
    · rw [if_neg hml]; exact h

/-- The number of correct examples is monotone in the beam width. -/
theorem countP_correct_mono (lens : List ℕ) (predss : List (List ℕ))
    {k l : ℕ} (hkl : k ≤ l) :
    (lens.zip predss).countP (fun lp => decide (lp.1 = agg_row lp.1 lp.2 k))
      ≤ (lens.zip predss).countP (fun lp => decide (lp.1 = agg_row lp.1 lp.2 l)) := by
  apply List.countP_mono_left
  intro x _ hx
  simp only [decide_eq_true_eq] at hx ⊢
  exact agg_row_correct_mono x.1 x.2 hkl hx

/-- Claim C2: on a non-empty input whose prediction rows all have beam width
`K` and whose gold list has the same length, the length-metrics mapping is
monotonically non-decreasing in beam width: the entry at `K - 1` dominates the
entry at every `k < K`. -/
theorem C2_length_metrics_monotone (lens : List ℕ) (predss : List (List ℕ))
    (b K : ℕ) (hne : predss ≠ []) (hlen : lens.length = predss.length)
    (hK : ∀ p ∈ predss, p.length = K) :
    ∀ k, k < K →
      (compute_length_metrics lens predss b).1.getD k 0
        ≤ (compute_length_metrics lens predss b).1.getD (K - 1) 0 := by
  intro k hk
  obtain ⟨p0, rest, rfl⟩ : ∃ p0 rest, predss = p0 :: rest := by
    cases predss with
    | nil => exact absurd rfl hne
    | cons a l => exact ⟨a, l, rfl⟩
  have hp0 : p0.length = K := hK p0 (List.mem_cons_self _ _)
  have hkK : k < p0.length := by omega
  have hK1 : K - 1 < p0.length := by omega
  rw [length_metrics_getD lens p0 rest b k hkK,
      length_metrics_getD lens p0 rest b (K - 1) hK1]
  have hN : (0 : ℚ) < (lens.length : ℚ) := by
    have h1 : 0 < lens.length := by rw [hlen]; exact Nat.succ_pos _
    exact_mod_cast h1
  have hc := countP_correct_mono lens (p0 :: rest) (k := k) (l := K - 1) (by omega)
  have hcq : (((lens.zip (p0 :: rest)).countP
        (fun lp => decide (lp.1 = agg_row lp.1 lp.2 k)) : ℕ) : ℚ)
      ≤ (((lens.zip (p0 :: rest)).countP
        (fun lp => decide (lp.1 = agg_row lp.1 lp.2 (K - 1))) : ℕ) : ℚ) := by
    exact_mod_cast hc
  exact div_le_div_of_nonneg_right hcq hN.le

/-- Witness for C2 at a concrete input: two examples with beam width 2. -/
theorem C2_length_metrics_monotone_witness :
    (compute_length_metrics [2, 3] [[1, 2], [3, 4]] 0).1.getD 0 0
      ≤ (compute_length_metrics [2, 3] [[1, 2], [3, 4]] 0).1.getD (2 - 1) 0 :=
  C2_length_metrics_monotone [2, 3] [[1, 2], [3, 4]] 0 2
    (by decide) (by decide) (by decide) 0 (by decide)

/-- Claim C4: on a non-empty input whose prediction rows all have beam width
`K ≥ 1` and whose gold list has the same length, the width-`k` accuracy is the
fraction of examples whose effective prediction (the gold length if it occurs
within `P[i][0..k]` inclusive, else `P[i][0]`) equals the gold length; if the
gold length is the top-1 prediction of every example, the width-0 accuracy is
exactly 1. -/
theorem C4_accuracy_counts_effective_predictions (lens : List ℕ)
    (predss : List (List ℕ)) (b K : ℕ)
    (hne : predss ≠ []) (hlen : lens.length = predss.length)
    (hK : ∀ p ∈ predss, p.length = K) (hKpos : 0 < K) :
    (∀ k, k < K →
      (compute_length_metrics lens predss b).1.getD k 0
        = (((lens.zip predss).countP
            (fun lp => decide (lp.1 = spec_effective_prediction lp.1 lp.2 k)) : ℕ) : ℚ)
          / (lens.length : ℚ))
    ∧ ((∀ lp ∈ lens.zip predss, lp.2.headI = lp.1) →
        (compute_length_metrics lens predss b).1.getD 0 0 = 1) := by
  obtain ⟨p0, rest, rfl⟩ : ∃ p0 rest, predss = p0 :: rest := by
    cases predss with
    | nil => exact absurd rfl hne
    | cons a l => exact ⟨a, l, rfl⟩
  have hp0 : p0.length = K := hK p0 (List.mem_cons_self _ _)
  have hpart1 : ∀ k, k < K →
      (compute_length_metrics lens (p0 :: rest) b).1.getD k 0
        = (((lens.zip (p0 :: rest)).countP
            (fun lp => decide (lp.1 = spec_effective_prediction lp.1 lp.2 k)) : ℕ) : ℚ)
          / (lens.length : ℚ) := by
    intro k hk
    have hkK : k < p0.length := by omega
    rw [length_metrics_getD lens p0 rest b k hkK]
    rfl
  refine ⟨hpart1, fun hall => ?_⟩
  rw [hpart1 0 hKpos]
  have hcnt : (lens.zip (p0 :: rest)).countP
      (fun lp => decide (lp.1 = spec_effective_prediction lp.1 lp.2 0))
      = (lens.zip (p0 :: rest)).length := by
    rw [List.countP_eq_length]
    intro lp hlp
    simp only [spec_effective_prediction, decide_eq_true_eq]
    by_cases hm : lp.1 ∈ lp.2.take 1
    · rw [if_pos hm]
    · rw [if_neg hm]; exact (hall lp hlp).symm
  rw [hcnt, List.length_zip, hlen, Nat.min_self]
  have hN0 : (((p0 :: rest).length : ℕ) : ℚ) ≠ 0 := by
    have hlp : (p0 :: rest).length ≠ 0 := by simp
    exact_mod_cast hlp
  exact div_self hN0

/-- Witness for C4: two examples whose gold length is the top-1 prediction
give width-0 accuracy exactly 1. -/
theorem C4_accuracy_counts_effective_predictions_witness :
    (compute_length_metrics [2, 3] [[2, 9], [3, 4]] 0).1.getD 0 0 = 1 :=
  (C4_accuracy_counts_effective_predictions [2, 3] [[2, 9], [3, 4]] 0 2
    (by decide) (by decide) (by decide) (by decide)).2 (by decide)

/-- The one-hot score vector described by the spec for a predicted length over
the label range `[0, m]`. -/
def one_hot_scores (m pred : ℕ) : List ℚ :=
  (List.range (m + 1)).map fun idx => if idx = pred then 1 else 0

/-- The label-range bound described by the spec: the maximum over all gold
lengths and all effective predictions at the selected beam. -/
def spec_report_max (lens : List ℕ) (predss : List (List ℕ)) (b : ℕ) : ℕ :=
  list_max (lens ++ ((lens.zip predss).map fun lp => spec_effective_prediction lp.1 lp.2 b))

/-- The report pairs described by the spec (claim C9): per example, the
one-hot vector of its effective prediction at the selected beam over the
integer range `[0, spec_report_max]`, the predicted and the expected length. -/
def spec_report_pairs (lens : List ℕ) (predss : List (List ℕ)) (b : ℕ) :
    List LabelPrediction :=
  ((((lens.zip predss).map fun lp => spec_effective_prediction lp.1 lp.2 b)).zip lens).map
    fun pe => LabelPrediction.mk (one_hot_scores (spec_report_max lens predss b) pe.1)
      pe.1 pe.2

/-- The label names described by the spec: the stringified integers of the
range `[0, spec_report_max]`. -/
def spec_report_label_names (lens : List ℕ) (predss : List (List ℕ)) (b : ℕ) :
    List String :=
  (List.range (spec_report_max lens predss b + 1)).map fun l => toString l

/-- Claim C9: on a non-empty input with a valid selected beam index, the
report returned by `compute_length_metrics` is exactly the delegation of the
spec-described one-hot pairs and stringified label range to the external
classification-metrics routine, with a placeholder loss of exactly 0. -/
theorem C9_report_delegates_one_hot_pairs (lens : List ℕ)
    (predss : List (List ℕ)) (b : ℕ)
    (hne : predss ≠ []) (hlens : lens ≠ []) (hb : b < predss.headI.length) :
    (compute_length_metrics lens predss b).2
      = some (compute_classification_metrics (spec_report_pairs lens predss b)
          (spec_report_label_names lens predss b) 0) := by
  obtain ⟨p0, rest, rfl⟩ : ∃ p0 rest, predss = p0 :: rest := by
    cases predss with
    | nil => exact absurd rfl hne
    | cons a l => exact ⟨a, l, rfl⟩
  rfl

/-- Witness for C9 at a concrete input. -/
theorem C9_report_delegates_one_hot_pairs_witness :
    (compute_length_metrics [2, 3] [[1, 2], [3, 4]] 0).2
      = some (compute_classification_metrics
          (spec_report_pairs [2, 3] [[1, 2], [3, 4]] 0)
          (spec_report_label_names [2, 3] [[1, 2], [3, 4]] 0) 0) :=
  C9_report_delegates_one_hot_pairs [2, 3] [[1, 2], [3, 4]] 0
    (by decide) (by decide) (by decide)

end PyText
